import Mathlib

/-!
Shallow embedding of the access-control core of the CS410 home-camera
project: the `User` record, the `AuthManager` identity/session store, its
role-gated administrative mutations, and the `can_view_camera` permission
engine.  Two copies of the permission engine exist in the repository: the
`AuthManager` method (in `CS 410 project/auth.py`) and an older
module-level function (in `auth.py`); both are embedded because they
diverge on the handling of a zero-valued access-window bound.
-/

namespace CS410Auth

/-- Role constants, as in `auth.py`. -/
def ROLE_ADMIN : String := "admin"

def ROLE_HOMEOWNER : String := "homeowner"

def ROLE_FAMILY : String := "family"

def ROLE_GUEST : String := "guest"

/-- The `User` dataclass: identifier, plaintext secret, role string, active
flag, homeowner-owned cameras, family/guest shared cameras, and the optional
guest access window. -/
structure User where
  email : String
  password : String
  role : String
  active : Bool := true
  cameras : List String := []
  allowed_cameras : List String := []
  access_start : Option Int := none
  access_end : Option Int := none
deriving DecidableEq, Repr

/-- Python `dict.get`: first binding of the key in the association list. -/
def dictGet (d : List (String × User)) (k : String) : Option User :=
  match d with
  | [] => none
  | (k0, v0) :: rest => if k0 = k then some v0 else dictGet rest k

/-- Python `k in d` membership test. -/
def dictContains (d : List (String × User)) (k : String) : Bool :=
  (dictGet d k).isSome

/-- Python `d[k] = v`: replace the binding in place if present, else append. -/
def dictSet (d : List (String × User)) (k : String) (v : User) :
    List (String × User) :=
  match d with
  | [] => [(k, v)]
  | (k0, v0) :: rest =>
    if k0 = k then (k, v) :: rest else (k0, v0) :: dictSet rest k v

/-- Python `del d[k]`: remove the binding of the key. -/
def dictDelete (d : List (String × User)) (k : String) :
    List (String × User) :=
  match d with
  | [] => []
  | (k0, v0) :: rest =>
    if k0 = k then rest else (k0, v0) :: dictDelete rest k

/-- Python truthiness of an `Optional[int]`: `None` and `0` are falsy. -/
def optTruthy (x : Option Int) : Bool :=
  match x with
  | none => false
  | some v => v != 0

/-- Tail of `AuthManager.can_view_camera` reached after the admin and
homeowner branches: the family block, the guest block, and the final
unknown-role deny.  Split out because an active homeowner whose action
matches no homeowner branch falls through into this code. -/
def can_view_camera_tail (u : User) (camera_id : String)
    (current_time : Int) (action : String) : Bool × String :=
  if u.role == ROLE_FAMILY then
    if !(u.allowed_cameras.contains camera_id) then
      (false, "This camera is not shared with you.")
    else if action == "live" then
      (true, "Family member live-view allowed.")
    else
      (false, "Family accounts cannot view playback or change settings.")
  else if u.role == ROLE_GUEST then
    if !(u.allowed_cameras.contains camera_id) then
      (false, "This guest invite does not include this camera.")
    else if optTruthy u.access_start
        && decide (current_time < u.access_start.getD 0) then
      (false, "Guest access not started.")
    else if optTruthy u.access_end
        && decide (current_time > u.access_end.getD 0) then
      (false, "Guest access expired.")
    else if action == "live" then
      (true, "Guest live-view allowed within time window.")
    else
      (false, "Guests cannot access playback or settings.")
  else
    (false, "Unknown role — access denied.")

/-- `AuthManager.can_view_camera` from `CS 410 project/auth.py`.  Note the
guest window checks use Python truthiness (`if user.access_start and ...`),
so a bound stored as `0` is skipped exactly like an absent bound. -/
def can_view_camera (user : Option User) (camera_id : String)
    (current_time : Int) (action : String) : Bool × String :=
  match user with
  | none => (false, "You must be logged in.")
  | some u =>
    if u.active = false then
      (false, "You must be logged in.")
    else if u.role == ROLE_ADMIN then
      (true, "Administrator access granted.")
    else if u.role == ROLE_HOMEOWNER then
      if action == "live" || action == "playback" then
        if u.cameras.contains camera_id then
          (true, "Homeowner access granted.")
        else
          (false, "Camera not part of your system.")
      else if action == "settings" then
        (true, "Homeowner may modify settings.")
      else if action == "user_mgmt" then
        (false, "User management allowed only for admin.")
      else
        can_view_camera_tail u camera_id current_time action
    else
      can_view_camera_tail u camera_id current_time action

/-- Tail of the family block of the older module-level `can_view_camera` in
`auth.py`: the guest block and the final unknown-role deny.  In that copy a
family member with a shared camera but an action outside the closed enum
falls through past the family block. -/
def can_view_camera_v0_tail2 (u : User) (camera_id : String)
    (current_time : Int) (action : String) : Bool × String :=
  if u.role == ROLE_GUEST then
    if !(u.allowed_cameras.contains camera_id) then
      (false, "This guest invite does not include that camera.")
    else if u.access_start.isSome
        && decide (current_time < u.access_start.getD 0) then
      (false, "Guest access has not started yet.")
    else if u.access_end.isSome
        && decide (current_time > u.access_end.getD 0) then
      (false, "Guest access has expired.")
    else if action == "live" then
      (true, "Guest can view this camera during the invite window.")
    else if action == "playback" || action == "settings"
        || action == "user_mgmt" then
      (false,
        "Guests cannot access video playback, system settings, or user management.")
    else
      (false, "Access denied for this user role.")
  else
    (false, "Access denied for this user role.")

/-- Tail of the older module-level `can_view_camera` reached after the admin
and homeowner branches: family block, guest block, final deny. -/
def can_view_camera_v0_tail1 (u : User) (camera_id : String)
    (current_time : Int) (action : String) : Bool × String :=
  if u.role == ROLE_FAMILY then
    if !(u.allowed_cameras.contains camera_id) then
      (false, "This camera has not been shared with your account.")
    else if action == "live" then
      (true, "Family member can view this live feed.")
    else if action == "playback" || action == "settings"
        || action == "user_mgmt" then
      (false,
        "Family members cannot view playback, change settings, or manage users.")
    else
      can_view_camera_v0_tail2 u camera_id current_time action
  else
    can_view_camera_v0_tail2 u camera_id current_time action

/-- The older module-level `can_view_camera` from `auth.py`.  Its guest
window checks use `start is not None` / `end is not None`, so a bound stored
as `0` does constrain, unlike the `AuthManager` copy. -/
def can_view_camera_v0 (user : Option User) (camera_id : String)
    (current_time : Int) (action : String) : Bool × String :=
  match user with
  | none => (false, "You must be logged in.")
  | some u =>
    if u.active = false then
      (false, "You must be logged in.")
    else if u.role == ROLE_ADMIN then
      (true, "Administrator access granted.")
    else if u.role == ROLE_HOMEOWNER then
      if action == "live" || action == "playback" then
        if u.cameras.contains camera_id then
          (true, "Homeowner access granted.")
        else
          (false, "Camera not part of this homeowner\x27s account.")
      else if action == "settings" || action == "user_mgmt" then
        if action == "user_mgmt" then
          (false, "User management is restricted to administrators.")
        else
          (true, "Homeowner can change camera settings.")
      else
        can_view_camera_v0_tail1 u camera_id current_time action
    else
      can_view_camera_v0_tail1 u camera_id current_time action

/-- The `AuthManager` state: the identity store (a Python dict from email to
`User`) and the session tracker (the current-user email, if any). -/
structure AuthManager where
  users : List (String × User)
  current_user_email : Option String
deriving DecidableEq, Repr

/-- Seeded homeowner identity from `_bootstrap_default_users`. -/
def bootstrapHomeowner : User :=
  { email := "homeowner@gmail.com", password := "password123",
    role := ROLE_HOMEOWNER,
    cameras := ["front_door", "backyard", "basement"] }

/-- Seeded admin identity from `_bootstrap_default_users`. -/
def bootstrapAdmin : User :=
  { email := "admin@system.local", password := "admin123",
    role := ROLE_ADMIN }

/-- `AuthManager.__init__`: empty session, the two bootstrap identities. -/
def initAuthManager : AuthManager :=
  { users := [(bootstrapHomeowner.email, bootstrapHomeowner),
              (bootstrapAdmin.email, bootstrapAdmin)],
    current_user_email := none }

/-- `AuthManager.login_user(email, password=None)`: returns the boolean
result and the updated state. -/
def login_user (st : AuthManager) (email : String)
    (password : Option String) : Bool × AuthManager :=
  match dictGet st.users email with
  | none => (false, { st with current_user_email := none })
  | some user =>
    if user.active = false then
      (false, { st with current_user_email := none })
    else
      match password with
      | some p =>
        if p != user.password then
          (false, { st with current_user_email := none })
        else
          (true, { st with current_user_email := some email })
      | none => (true, { st with current_user_email := some email })

/-- `AuthManager.logout_user`. -/
def logout_user (st : AuthManager) : AuthManager :=
  { st with current_user_email := none }

/-- `AuthManager.current_user`: re-resolves the tracked email against the
store and hides absent or inactive records. -/
def current_user (st : AuthManager) : Option User :=
  match st.current_user_email with
  | none => none
  | some e =>
    match dictGet st.users e with
    | none => none
    | some u => if u.active = false then none else some u

/-- `AuthManager.has_role`. -/
def has_role (user : Option User) (role : String) : Bool :=
  match user with
  | none => false
  | some u => u.role == role

/-- `AuthManager.is_admin`. -/
def is_admin (user : Option User) : Bool :=
  has_role user ROLE_ADMIN

/-- `AuthManager.is_homeowner`. -/
def is_homeowner (user : Option User) : Bool :=
  has_role user ROLE_HOMEOWNER

/-- Python exceptions raised by the administrative operations:
`PermissionError` is the spec taxonomy Forbidden / Unauthenticated,
`ValueError` is DuplicateIdentity / NotFound. -/
inductive PyErr where
  | permissionError (msg : String)
  | valueError (msg : String)
deriving DecidableEq, Repr

/-- `AuthManager.admin_create_user`: returns the raised exception or the
created record, together with the post-state. -/
def admin_create_user (st : AuthManager) (email password role : String) :
    Except PyErr User × AuthManager :=
  if is_admin (current_user st) = false then
    (.error (.permissionError "Only administrators can create users."), st)
  else if dictContains st.users email then
    (.error (.valueError "User already exists."), st)
  else
    let user : User := { email := email, password := password, role := role }
    (.ok user, { st with users := dictSet st.users email user })

/-- `AuthManager.admin_deactivate_user`. -/
def admin_deactivate_user (st : AuthManager) (email : String) :
    Except PyErr User × AuthManager :=
  if is_admin (current_user st) = false then
    (.error (.permissionError "Only administrators can deactivate users."), st)
  else
    match dictGet st.users email with
    | none => (.error (.valueError "User not found."), st)
    | some user =>
      let user1 := { user with active := false }
      (.ok user1, { st with users := dictSet st.users email user1 })

/-- `AuthManager.admin_delete_user`. -/
def admin_delete_user (st : AuthManager) (email : String) :
    Except PyErr Unit × AuthManager :=
  if is_admin (current_user st) = false then
    (.error (.permissionError "Only administrators can delete users."), st)
  else if dictContains st.users email = false then
    (.error (.valueError "User not found."), st)
  else
    (.ok (), { st with users := dictDelete st.users email })

/-- `AuthManager.homeowner_share_camera_with_family`: overwrite an existing
record to Family with the new shared cameras, or create a fresh Family
identity; returns the resulting record and the post-state. -/
def homeowner_share_camera_with_family (st : AuthManager)
    (family_email password : String) (allowed_cameras : List String) :
    Except PyErr User × AuthManager :=
  if is_homeowner (current_user st) = false then
    (.error (.permissionError "Only homeowners can manage family accounts."), st)
  else
    match dictGet st.users family_email with
    | some member =>
      let member1 :=
        { member with role := ROLE_FAMILY, allowed_cameras := allowed_cameras }
      (.ok member1, { st with users := dictSet st.users family_email member1 })
    | none =>
      let member : User :=
        { email := family_email, password := password, role := ROLE_FAMILY,
          allowed_cameras := allowed_cameras }
      (.ok member, { st with users := dictSet st.users family_email member })

/-- Python `a < b` where `b` is an `Optional[int]`: raises `TypeError` when
`b` is `None`. -/
def pyLt (a : Int) (b : Option Int) : Except String Bool :=
  match b with
  | none => .error "TypeError: int and NoneType are not comparable"
  | some v => .ok (decide (a < v))

/-- Python `a > b` where `b` is an `Optional[int]`: raises `TypeError` when
`b` is `None`. -/
def pyGt (a : Int) (b : Option Int) : Except String Bool :=
  match b with
  | none => .error "TypeError: int and NoneType are not comparable"
  | some v => .ok (decide (a > v))

/-- Exception-explicit guest branch, continuation after the start-bound
check: the end-bound check and the action check. -/
def guestEndE (u : User) (current_time : Int) (action : String) :
    Except String (Bool × String) :=
  if optTruthy u.access_end then
    match pyGt current_time u.access_end with
    | .error e => .error e
    | .ok true => .ok (false, "Guest access expired.")
    | .ok false =>
      if action == "live" then
        .ok (true, "Guest live-view allowed within time window.")
      else
        .ok (false, "Guests cannot access playback or settings.")
  else
    if action == "live" then
      .ok (true, "Guest live-view allowed within time window.")
    else
      .ok (false, "Guests cannot access playback or settings.")

/-- Exception-explicit guest branch of `AuthManager.can_view_camera`,
entered once the camera is known to be shared: mirrors the short-circuit
`if user.access_start and current_time < user.access_start`. -/
def guestStartE (u : User) (current_time : Int) (action : String) :
    Except String (Bool × String) :=
  if optTruthy u.access_start then
    match pyLt current_time u.access_start with
    | .error e => .error e
    | .ok true => .ok (false, "Guest access not started.")
    | .ok false => guestEndE u current_time action
  else
    guestEndE u current_time action

/-- Exception-explicit tail of `AuthManager.can_view_camera` (family block,
guest block, final deny), where every Python comparison against an optional
bound goes through `pyLt`/`pyGt` and would surface as an error. -/
def can_view_cameraE_tail (u : User) (camera_id : String)
    (current_time : Int) (action : String) : Except String (Bool × String) :=
  if u.role == ROLE_FAMILY then
    if !(u.allowed_cameras.contains camera_id) then
      .ok (false, "This camera is not shared with you.")
    else if action == "live" then
      .ok (true, "Family member live-view allowed.")
    else
      .ok (false, "Family accounts cannot view playback or change settings.")
  else if u.role == ROLE_GUEST then
    if !(u.allowed_cameras.contains camera_id) then
      .ok (false, "This guest invite does not include this camera.")
    else
      guestStartE u current_time action
  else
    .ok (false, "Unknown role — access denied.")

/-- Exception-explicit embedding of `AuthManager.can_view_camera`: identical
control flow, but a comparison of the clock against a `None` bound would
return a `TypeError` instead of a value.  Proving it always returns `.ok`
is the formal content of the never-raises guarantee. -/
def can_view_cameraE (user : Option User) (camera_id : String)
    (current_time : Int) (action : String) : Except String (Bool × String) :=
  match user with
  | none => .ok (false, "You must be logged in.")
  | some u =>
    if u.active = false then
      .ok (false, "You must be logged in.")
    else if u.role == ROLE_ADMIN then
      .ok (true, "Administrator access granted.")
    else if u.role == ROLE_HOMEOWNER then
      if action == "live" || action == "playback" then
        if u.cameras.contains camera_id then
          .ok (true, "Homeowner access granted.")
        else
          .ok (false, "Camera not part of your system.")
      else if action == "settings" then
        .ok (true, "Homeowner may modify settings.")
      else if action == "user_mgmt" then
        .ok (false, "User management allowed only for admin.")
      else
        can_view_cameraE_tail u camera_id current_time action
    else
      can_view_cameraE_tail u camera_id current_time action

/-- Active guest whose shared list holds `backyard` and whose access window
ends at timestamp `0` (a present, zero-valued bound). -/
def guestZeroEnd : User :=
  { email := "guest0@example.com", password := "pw", role := ROLE_GUEST,
    allowed_cameras := ["backyard"], access_end := some 0 }

/-- Active guest with window `[100, 200]` on camera `backyard`, as in the
spec scenario. -/
def guestWindow : User :=
  { email := "g@x.com", password := "p", role := ROLE_GUEST,
    allowed_cameras := ["backyard"],
    access_start := some 100, access_end := some 200 }

/-- Active family member sharing only `front_door`. -/
def familyFront : User :=
  { email := "f@x.com", password := "fp", role := ROLE_FAMILY,
    allowed_cameras := ["front_door"] }

/-- Uniqueness of the dict keys, maintained by every Python dict. -/
def keysNodup (d : List (String × User)) : Prop :=
  (d.map Prod.fst).Nodup

/-- Bootstrap state with the seeded homeowner logged in. -/
def loggedInHomeowner : AuthManager :=
  { initAuthManager with current_user_email := some bootstrapHomeowner.email }

/-- Bootstrap state with the seeded admin logged in. -/
def loggedInAdmin : AuthManager :=
  { initAuthManager with current_user_email := some bootstrapAdmin.email }

/-! Helper lemmas about the dict operations. -/

theorem dictGet_dictSet_self (d : List (String × User)) (k : String)
    (v : User) : dictGet (dictSet d k v) k = some v := by
  induction d with
  | nil => simp [dictSet, dictGet]
  | cons hd tl ih =>
    obtain ⟨k0, v0⟩ := hd
    by_cases h : k0 = k
    · simp [dictSet, h, dictGet]
    · simp [dictSet, h, dictGet, ih]

theorem dictGet_dictSet_ne (d : List (String × User)) (k k' : String)
    (v : User) (h : k' ≠ k) :
    dictGet (dictSet d k v) k' = dictGet d k' := by
  induction d with
  | nil => simp [dictSet, dictGet, Ne.symm h]
  | cons hd tl ih =>
    obtain ⟨k0, v0⟩ := hd
    by_cases h0 : k0 = k
    · subst h0
      simp [dictSet, dictGet, Ne.symm h]
    · simp only [dictSet, if_neg h0]
      by_cases h1 : k0 = k'
      · simp [dictGet, h1]
      · simp [dictGet, h1, ih]

theorem dictGet_none_of_not_mem (d : List (String × User)) (k : String)
    (h : k ∉ d.map Prod.fst) : dictGet d k = none := by
  induction d with
  | nil => rfl
  | cons hd tl ih =>
    obtain ⟨k0, v0⟩ := hd
    simp only [List.map_cons, List.mem_cons] at h
    push_neg at h
    simp [dictGet, Ne.symm h.1, ih h.2]

theorem dictGet_dictDelete_self (d : List (String × User)) (k : String)
    (h : keysNodup d) : dictGet (dictDelete d k) k = none := by
  induction d with
  | nil => rfl
  | cons hd tl ih =>
    obtain ⟨k0, v0⟩ := hd
    unfold keysNodup at h
    simp only [List.map_cons, List.nodup_cons] at h
    by_cases h0 : k0 = k
    · subst h0
      simp only [dictDelete, if_pos rfl]
      exact dictGet_none_of_not_mem tl k0 h.1
    · simp [dictDelete, h0, dictGet, ih h.2]

/-- C1: in `AuthManager.can_view_camera` an access window whose end is the
present numeric value `0` is skipped by the truthiness test
`if user.access_end and ...`, so a guest whose invite expired at time `0`
is still allowed at time `1`; the sibling module-level copy, which tests
`end is not None`, denies the same request as expired, and a nonzero bound
behaves as the claim states in both copies. -/
theorem guest_zero_bound_unconstrained :
    can_view_camera (some guestZeroEnd) "backyard" 1 "live"
      = (true, "Guest live-view allowed within time window.") ∧
    can_view_camera_v0 (some guestZeroEnd) "backyard" 1 "live"
      = (false, "Guest access has expired.") ∧
    can_view_camera (some guestWindow) "backyard" 250 "live"
      = (false, "Guest access expired.") ∧
    can_view_camera (some guestWindow) "backyard" 50 "live"
      = (false, "Guest access not started.") ∧
    can_view_camera (some guestWindow) "backyard" 150 "live"
      = (true, "Guest live-view allowed within time window.") := by
  decide

/-! Relating the exception-explicit permission engine to the total one. -/

theorem ok_ite (c : Prop) [Decidable c] (x y : Bool × String) :
    (if c then Except.ok x else Except.ok y)
      = (Except.ok (if c then x else y) : Except String (Bool × String)) := by
  split_ifs <;> rfl

theorem guestEndE_ok (u : User) (t : Int) (a : String) :
    guestEndE u t a =
      .ok (if optTruthy u.access_end && decide (t > u.access_end.getD 0) then
             (false, "Guest access expired.")
           else if a == "live" then
             (true, "Guest live-view allowed within time window.")
           else
             (false, "Guests cannot access playback or settings.")) := by
  unfold guestEndE pyGt
  cases he : u.access_end with
  | none => simp [optTruthy, ok_ite]
  | some e =>
    by_cases h0 : e = 0
    · simp [optTruthy, h0, ok_ite]
    · cases hgt : decide (t > e) with
      | false => simp [optTruthy, h0, hgt, ok_ite]
      | true => simp [optTruthy, h0, hgt]

theorem guestStartE_ok (u : User) (t : Int) (a : String) :
    guestStartE u t a =
      .ok (if optTruthy u.access_start && decide (t < u.access_start.getD 0) then
             (false, "Guest access not started.")
           else if optTruthy u.access_end && decide (t > u.access_end.getD 0) then
             (false, "Guest access expired.")
           else if a == "live" then
             (true, "Guest live-view allowed within time window.")
           else
             (false, "Guests cannot access playback or settings.")) := by
  unfold guestStartE pyLt
  cases hs : u.access_start with
  | none => simp [optTruthy, guestEndE_ok, ok_ite]
  | some s =>
    by_cases h0 : s = 0
    · simp [optTruthy, h0, guestEndE_ok, ok_ite]
    · cases hlt : decide (t < s) with
      | false => simp [optTruthy, h0, hlt, guestEndE_ok, ok_ite]
      | true => simp [optTruthy, h0, hlt]

theorem can_view_cameraE_tail_ok (u : User) (c : String) (t : Int)
    (a : String) :
    can_view_cameraE_tail u c t a = .ok (can_view_camera_tail u c t a) := by
  unfold can_view_cameraE_tail can_view_camera_tail
  rw [guestStartE_ok]
  split_ifs <;> rfl

theorem can_view_cameraE_ok (user : Option User) (c : String) (t : Int)
    (a : String) :
    can_view_cameraE user c t a = .ok (can_view_camera user c t a) := by
  cases user with
  | none => rfl
  | some u =>
    unfold can_view_cameraE can_view_camera
    simp only [can_view_cameraE_tail_ok]
    split_ifs <;> rfl

/-- C2: for every input — any role string, any action string — the
exception-explicit embedding of `AuthManager.can_view_camera` returns
`.ok` of exactly the pair the total function computes (so no `TypeError`
is ever reached), and an active homeowner whose action matches none of
the homeowner branches falls through to the final unknown-role deny. -/
theorem can_view_camera_never_raises :
    (∀ (user : Option User) (camera_id : String) (current_time : Int)
        (action : String),
        can_view_cameraE user camera_id current_time action
          = Except.ok (can_view_camera user camera_id current_time action)) ∧
    (∀ (u : User) (camera_id : String) (current_time : Int) (action : String),
        u.active = true → u.role = ROLE_HOMEOWNER →
        action ≠ "live" → action ≠ "playback" → action ≠ "settings" →
        action ≠ "user_mgmt" →
        can_view_camera (some u) camera_id current_time action
          = (false, "Unknown role — access denied.")) := by
  constructor
  · exact can_view_cameraE_ok
  · intro u c t a hact hrole h1 h2 h3 h4
    unfold can_view_camera can_view_camera_tail
    simp [hact, hrole, ROLE_HOMEOWNER, ROLE_ADMIN, ROLE_FAMILY, ROLE_GUEST,
      h1, h2, h3, h4]

/-- Witness for C2 at the bootstrap homeowner and the unrecognized action
`"reboot"`. -/
theorem can_view_camera_never_raises_witness :
    can_view_cameraE (some bootstrapHomeowner) "front_door" 0 "reboot"
      = Except.ok (can_view_camera (some bootstrapHomeowner) "front_door" 0
          "reboot") ∧
    can_view_camera (some bootstrapHomeowner) "front_door" 0 "reboot"
      = (false, "Unknown role — access denied.") :=
  ⟨can_view_camera_never_raises.1 (some bootstrapHomeowner) "front_door" 0
      "reboot",
    can_view_camera_never_raises.2 bootstrapHomeowner "front_door" 0 "reboot"
      (by decide) (by decide) (by decide) (by decide) (by decide) (by decide)⟩

/-- C6: an active family member is denied on any camera outside the shared
list whatever the action is, and on a shared camera is allowed exactly for
the `live` action. -/
theorem family_rules (u : User) (c : String) (t : Int) (a : String)
    (hact : u.active = true) (hrole : u.role = ROLE_FAMILY) :
    (c ∉ u.allowed_cameras →
        can_view_camera (some u) c t a
          = (false, "This camera is not shared with you.")) ∧
    (c ∈ u.allowed_cameras →
        ((can_view_camera (some u) c t a).1 = true ↔ a = "live")) := by
  constructor
  · intro hc
    unfold can_view_camera can_view_camera_tail
    simp [hact, hrole, ROLE_FAMILY, ROLE_ADMIN, ROLE_HOMEOWNER, hc]
  · intro hc
    unfold can_view_camera can_view_camera_tail
    by_cases ha : a = "live" <;>
      simp [hact, hrole, ROLE_FAMILY, ROLE_ADMIN, ROLE_HOMEOWNER, hc, ha]

/-- Witness for C6: the family member sharing only `front_door` is denied
on `backyard` and allowed on `front_door` only for `live`. -/
theorem family_rules_witness :
    can_view_camera (some familyFront) "backyard" 0 "live"
      = (false, "This camera is not shared with you.") ∧
    ((can_view_camera (some familyFront) "front_door" 0 "playback").1 = true
      ↔ "playback" = "live") :=
  ⟨(family_rules familyFront "backyard" 0 "live" (by decide) (by decide)).1
      (by decide),
    (family_rules familyFront "front_door" 0 "playback" (by decide)
      (by decide)).2 (by decide)⟩

/-- C7: an active homeowner gets `live` and `playback` exactly on owned
cameras, `settings` on any camera, and never `user_mgmt`. -/
theorem homeowner_rules (u : User) (c : String) (t : Int)
    (hact : u.active = true) (hrole : u.role = ROLE_HOMEOWNER) :
    ((can_view_camera (some u) c t "live").1 = true ↔ c ∈ u.cameras) ∧
    ((can_view_camera (some u) c t "playback").1 = true ↔ c ∈ u.cameras) ∧
    can_view_camera (some u) c t "settings"
      = (true, "Homeowner may modify settings.") ∧
    can_view_camera (some u) c t "user_mgmt"
      = (false, "User management allowed only for admin.") := by
  refine ⟨?_, ?_, ?_, ?_⟩ <;>
    [skip; skip;
      (unfold can_view_camera;
        simp [hact, hrole, ROLE_HOMEOWNER, ROLE_ADMIN]);
      (unfold can_view_camera;
        simp [hact, hrole, ROLE_HOMEOWNER, ROLE_ADMIN])] <;>
    (unfold can_view_camera;
      by_cases hc : c ∈ u.cameras <;>
        simp [hact, hrole, ROLE_HOMEOWNER, ROLE_ADMIN, hc])

/-- Witness for C7 at the bootstrap homeowner and camera `front_door`. -/
theorem homeowner_rules_witness :
    ((can_view_camera (some bootstrapHomeowner) "front_door" 0 "live").1
        = true ↔ "front_door" ∈ bootstrapHomeowner.cameras) ∧
    ((can_view_camera (some bootstrapHomeowner) "front_door" 0 "playback").1
        = true ↔ "front_door" ∈ bootstrapHomeowner.cameras) ∧
    can_view_camera (some bootstrapHomeowner) "front_door" 0 "settings"
      = (true, "Homeowner may modify settings.") ∧
    can_view_camera (some bootstrapHomeowner) "front_door" 0 "user_mgmt"
      = (false, "User management allowed only for admin.") :=
  homeowner_rules bootstrapHomeowner "front_door" 0 (by decide) (by decide)

/-- C3: logging in an existing active identity with a matching (or omitted)
secret succeeds and makes `current_user` resolve to that record; logging in
an absent identity, an inactive identity, or with a non-matching supplied
secret clears the session and fails, leaving `current_user` at `none`. -/
theorem login_user_spec (st : AuthManager) (email : String)
    (pw : Option String) :
    (∀ u, dictGet st.users email = some u → u.active = true →
        (pw = none ∨ pw = some u.password) →
        login_user st email pw
          = (true, { st with current_user_email := some email }) ∧
        current_user (login_user st email pw).2 = some u) ∧
    ((dictGet st.users email = none
        ∨ (∃ u, dictGet st.users email = some u ∧ u.active = false)
        ∨ (∃ u p, dictGet st.users email = some u ∧ pw = some p
            ∧ p ≠ u.password)) →
      login_user st email pw
          = (false, { st with current_user_email := none }) ∧
      current_user (login_user st email pw).2 = none) := by
  constructor
  · intro u hu hact hpw
    have hl : login_user st email pw
        = (true, { st with current_user_email := some email }) := by
      unfold login_user
      rw [hu]
      rcases hpw with h | h <;> subst h <;> simp [hact]
    refine ⟨hl, ?_⟩
    rw [hl]
    unfold current_user
    simp [hu, hact]
  · intro h
    have hl : login_user st email pw
        = (false, { st with current_user_email := none }) := by
      rcases h with h | ⟨u, hu, hact⟩ | ⟨u, p, hu, hp, hne⟩
      · unfold login_user
        rw [h]
      · unfold login_user
        rw [hu]
        simp [hact]
      · unfold login_user
        rw [hu]
        subst hp
        by_cases hact : u.active = false
        · simp [hact]
        · simp [hact, bne_iff_ne, hne]
    exact ⟨hl, by rw [hl]; rfl⟩

/-- Witness for C3: on the bootstrap state the homeowner logs in with the
stored secret, and fails with a wrong secret. -/
theorem login_user_spec_witness :
    (login_user initAuthManager "homeowner@gmail.com" (some "password123")
        = (true, { initAuthManager with
            current_user_email := some "homeowner@gmail.com" }) ∧
      current_user (login_user initAuthManager "homeowner@gmail.com"
          (some "password123")).2 = some bootstrapHomeowner) ∧
    (login_user initAuthManager "homeowner@gmail.com" (some "wrong")
        = (false, { initAuthManager with current_user_email := none }) ∧
      current_user (login_user initAuthManager "homeowner@gmail.com"
          (some "wrong")).2 = none) :=
  ⟨(login_user_spec initAuthManager "homeowner@gmail.com"
        (some "password123")).1 bootstrapHomeowner (by decide) (by decide)
      (Or.inr (by decide)),
    (login_user_spec initAuthManager "homeowner@gmail.com" (some "wrong")).2
      (Or.inr (Or.inr ⟨bootstrapHomeowner, "wrong", by decide, rfl,
        by decide⟩))⟩

/-- C4: with the secret argument omitted (`None`), `login_user` skips the
credential comparison: any existing active identity logs in successfully,
whatever its stored password is. -/
theorem login_user_no_secret (st : AuthManager) (email : String) (u : User)
    (hu : dictGet st.users email = some u) (hact : u.active = true) :
    login_user st email none
      = (true, { st with current_user_email := some email }) := by
  unfold login_user
  rw [hu]
  simp [hact]

/-- Witness for C4: the bootstrap admin account is logged in with no
password supplied. -/
theorem login_user_no_secret_witness :
    login_user initAuthManager "admin@system.local" none
      = (true, { initAuthManager with
          current_user_email := some "admin@system.local" }) :=
  login_user_no_secret initAuthManager "admin@system.local" bootstrapAdmin
    (by decide) (by decide)

theorem login_user_sets_session (st0 : AuthManager) (id : String)
    (pw : Option String) (st : AuthManager)
    (h : login_user st0 id pw = (true, st)) :
    st = { st0 with current_user_email := some id } := by
  unfold login_user at h
  cases hg : dictGet st0.users id <;> rw [hg] at h
  · simp at h
  case some u =>
    by_cases hact : u.active = false
    · simp [hact] at h
    · cases pw with
      | none =>
        simp [hact, Prod.ext_iff] at h
        exact h.symm
      | some p =>
        cases hbp : (p != u.password) <;> simp [hact, hbp, Prod.ext_iff] at h
        exact h.symm

/-- C5: `current_user` only ever returns a record that the store still maps
from the tracked identifier with `active = true`; consequently, after a
successful login of an identity, deactivating or deleting that identity
makes the next `current_user` call return `none`. -/
theorem current_user_revalidates :
    (∀ (st : AuthManager) (u : User), current_user st = some u →
        ∃ e, st.current_user_email = some e ∧ dictGet st.users e = some u
          ∧ u.active = true) ∧
    (∀ (st0 st st1 : AuthManager) (id : String) (pw : Option String)
        (r : User),
        login_user st0 id pw = (true, st) →
        admin_deactivate_user st id = (Except.ok r, st1) →
        current_user st1 = none) ∧
    (∀ (st0 st st1 : AuthManager) (id : String) (pw : Option String),
        keysNodup st0.users →
        login_user st0 id pw = (true, st) →
        admin_delete_user st id = (Except.ok (), st1) →
        current_user st1 = none) := by
  refine ⟨?_, ?_, ?_⟩
  · intro st u h
    unfold current_user at h
    split at h
    · exact absurd h (by simp)
    · rename_i e heq
      split at h
      · exact absurd h (by simp)
      · rename_i v hg
        split at h
        · exact absurd h (by simp)
        · rename_i hv
          injection h with h2
          subst h2
          exact ⟨e, heq, hg, by simpa using hv⟩
  · intro st0 st st1 id pw r hlog hdeact
    have hst := login_user_sets_session st0 id pw st hlog
    subst hst
    unfold admin_deactivate_user at hdeact
    by_cases hadm : is_admin (current_user
        { st0 with current_user_email := some id }) = false
    · simp [hadm] at hdeact
    · rw [if_neg (by simp [hadm])] at hdeact
      cases hg : dictGet { st0 with
          current_user_email := some id }.users id with
      | none =>
        rw [hg] at hdeact
        simp at hdeact
      | some user =>
        rw [hg] at hdeact
        simp only [Prod.ext_iff] at hdeact
        rw [← hdeact.2]
        unfold current_user
        simp [dictGet_dictSet_self]
  · intro st0 st st1 id pw hnd hlog hdel
    have hst := login_user_sets_session st0 id pw st hlog
    subst hst
    unfold admin_delete_user at hdel
    by_cases hadm : is_admin (current_user
        { st0 with current_user_email := some id }) = false
    · simp [hadm] at hdel
    · rw [if_neg (by simp [hadm])] at hdel
      by_cases hc : dictContains { st0 with
          current_user_email := some id }.users id = false
      · simp [hc] at hdel
      · rw [if_neg (by simp [hc])] at hdel
        simp only [Prod.ext_iff] at hdel
        rw [← hdel.2]
        unfold current_user
        simp [dictGet_dictDelete_self _ _ hnd]

/-- Witness for C5: the bootstrap admin logs in (so `current_user` is the
admin), then deactivates, respectively deletes, its own identity; the next
`current_user` call returns `none` in both runs. -/
theorem current_user_revalidates_witness :
    (∃ e, loggedInAdmin.current_user_email = some e
      ∧ dictGet loggedInAdmin.users e = some bootstrapAdmin
      ∧ bootstrapAdmin.active = true) ∧
    current_user (admin_deactivate_user
        (login_user initAuthManager "admin@system.local" none).2
        "admin@system.local").2 = none ∧
    current_user (admin_delete_user
        (login_user initAuthManager "admin@system.local" none).2
        "admin@system.local").2 = none :=
  ⟨current_user_revalidates.1 loggedInAdmin bootstrapAdmin (by decide),
    current_user_revalidates.2.1 initAuthManager
      (login_user initAuthManager "admin@system.local" none).2
      (admin_deactivate_user
        (login_user initAuthManager "admin@system.local" none).2
        "admin@system.local").2
      "admin@system.local" none { bootstrapAdmin with active := false }
      rfl rfl,
    current_user_revalidates.2.2 initAuthManager
      (login_user initAuthManager "admin@system.local" none).2
      (admin_delete_user
        (login_user initAuthManager "admin@system.local" none).2
        "admin@system.local").2
      "admin@system.local" none (by unfold keysNodup; decide) rfl rfl⟩

/-- C8: `admin_create_user` raises `PermissionError` when the caller is not
an admin, raises `ValueError` on a duplicate identifier — both leaving the
whole state (store and session) untouched — and otherwise adds exactly one
new active record with empty camera lists and no access window, leaving the
session untouched. -/
theorem admin_create_user_spec (st : AuthManager) (email pw role : String) :
    (is_admin (current_user st) = false →
        admin_create_user st email pw role
          = (Except.error (PyErr.permissionError
              "Only administrators can create users."), st)) ∧
    (is_admin (current_user st) = true →
        dictContains st.users email = true →
        admin_create_user st email pw role
          = (Except.error (PyErr.valueError "User already exists."), st)) ∧
    (is_admin (current_user st) = true →
        dictContains st.users email = false →
        admin_create_user st email pw role
          = (Except.ok { email := email, password := pw, role := role,
                         active := true, cameras := [], allowed_cameras := [],
                         access_start := none, access_end := none },
              { st with users := dictSet st.users email
                                   { email := email, password := pw,
                                     role := role } })) := by
  refine ⟨?_, ?_, ?_⟩
  · intro h1
    unfold admin_create_user
    simp [h1]
  · intro h1 h2
    unfold admin_create_user
    simp [h1, h2]
  · intro h1 h2
    unfold admin_create_user
    simp [h1, h2]

/-- Witness for C8: on the bootstrap state an anonymous caller is refused;
with the admin logged in, recreating the homeowner is refused as a
duplicate and creating a fresh identity succeeds. -/
theorem admin_create_user_spec_witness :
    admin_create_user initAuthManager "new@x.com" "pw" "guest"
      = (Except.error (PyErr.permissionError
          "Only administrators can create users."), initAuthManager) ∧
    admin_create_user loggedInAdmin "homeowner@gmail.com" "pw" "guest"
      = (Except.error (PyErr.valueError "User already exists."),
          loggedInAdmin) ∧
    admin_create_user loggedInAdmin "new@x.com" "pw" "guest"
      = (Except.ok { email := "new@x.com", password := "pw", role := "guest",
                     active := true, cameras := [], allowed_cameras := [],
                     access_start := none, access_end := none },
          { loggedInAdmin with users := dictSet loggedInAdmin.users
                                         "new@x.com"
                                         { email := "new@x.com",
                                           password := "pw",
                                           role := "guest" } }) :=
  ⟨(admin_create_user_spec initAuthManager "new@x.com" "pw" "guest").1
      (by decide),
    (admin_create_user_spec loggedInAdmin "homeowner@gmail.com" "pw"
        "guest").2.1 (by decide) (by decide),
    (admin_create_user_spec loggedInAdmin "new@x.com" "pw" "guest").2.2
      (by decide) (by decide)⟩

/-- C9: with a homeowner as the caller, sharing with an existing identity
rewrites only that record's role (to Family) and shared-camera list — the
stored password, active flag, owned cameras, and access window survive the
`{ m with ... }` update and the supplied secret does not occur in the
result — while an absent identity yields a fresh active Family record with
the given secret and cameras; in both cases every other key of the store
still maps to its old record. -/
theorem share_family_spec (st : AuthManager) (id pw : String)
    (cams : List String)
    (hown : is_homeowner (current_user st) = true) :
    (∀ m, dictGet st.users id = some m →
        homeowner_share_camera_with_family st id pw cams
          = (Except.ok { m with role := ROLE_FAMILY, allowed_cameras := cams },
              { st with users := dictSet st.users id
                                   { m with
                                     role := ROLE_FAMILY,
                                     allowed_cameras := cams } })) ∧
    (dictGet st.users id = none →
        homeowner_share_camera_with_family st id pw cams
          = (Except.ok { email := id, password := pw, role := ROLE_FAMILY,
                         active := true, cameras := [],
                         allowed_cameras := cams, access_start := none,
                         access_end := none },
              { st with users := dictSet st.users id
                                   { email := id, password := pw,
                                     role := ROLE_FAMILY,
                                     allowed_cameras := cams } })) ∧
    (∀ e, e ≠ id →
        dictGet (homeowner_share_camera_with_family st id pw cams).2.users e
          = dictGet st.users e) := by
  refine ⟨?_, ?_, ?_⟩
  · intro m hm
    unfold homeowner_share_camera_with_family
    simp [hown, hm]
  · intro hm
    unfold homeowner_share_camera_with_family
    simp [hown, hm]
  · intro e he
    unfold homeowner_share_camera_with_family
    cases hm : dictGet st.users id <;>
      simp [hown, hm, dictGet_dictSet_ne _ _ _ _ he]

/-- Witness for C9: with the bootstrap homeowner logged in, sharing with the
fresh identity `f@x.com` creates a Family record, and the homeowner's own
record is untouched by it. -/
theorem share_family_spec_witness :
    homeowner_share_camera_with_family loggedInHomeowner "f@x.com" "fp"
        ["front_door"]
      = (Except.ok { email := "f@x.com", password := "fp",
                     role := ROLE_FAMILY, active := true, cameras := [],
                     allowed_cameras := ["front_door"], access_start := none,
                     access_end := none },
          { loggedInHomeowner with
              users := dictSet loggedInHomeowner.users "f@x.com"
                                 { email := "f@x.com", password := "fp",
                                   role := ROLE_FAMILY,
                                   allowed_cameras := ["front_door"] } }) ∧
    dictGet (homeowner_share_camera_with_family loggedInHomeowner "f@x.com"
        "fp" ["front_door"]).2.users "homeowner@gmail.com"
      = dictGet loggedInHomeowner.users "homeowner@gmail.com" :=
  ⟨(share_family_spec loggedInHomeowner "f@x.com" "fp" ["front_door"]
      (by decide)).2.1 (by decide),
    (share_family_spec loggedInHomeowner "f@x.com" "fp" ["front_door"]
      (by decide)).2.2 "homeowner@gmail.com" (by decide)⟩

/-- C10: the overwrite path of `homeowner_share_camera_with_family` has no
guard on the target's current role: for any existing record — admin,
homeowner, or the caller's own — the call returns and stores that record
with its role forced to Family. -/
theorem share_family_overwrites_any_role (st : AuthManager) (id pw : String)
    (cams : List String) (m : User)
    (hown : is_homeowner (current_user st) = true)
    (hm : dictGet st.users id = some m) :
    (homeowner_share_camera_with_family st id pw cams).1
      = Except.ok { m with role := ROLE_FAMILY, allowed_cameras := cams } ∧
    dictGet (homeowner_share_camera_with_family st id pw cams).2.users id
      = some { m with role := ROLE_FAMILY, allowed_cameras := cams } := by
  unfold homeowner_share_camera_with_family
  simp [hown, hm, dictGet_dictSet_self]

/-- Witness for C10: the bootstrap homeowner demotes the bootstrap admin
account to a Family account. -/
theorem share_family_overwrites_any_role_witness :
    (homeowner_share_camera_with_family loggedInHomeowner
        "admin@system.local" "x" ["front_door"]).1
      = Except.ok { bootstrapAdmin with
                    role := ROLE_FAMILY,
                    allowed_cameras := ["front_door"] } ∧
    dictGet (homeowner_share_camera_with_family loggedInHomeowner
        "admin@system.local" "x" ["front_door"]).2.users "admin@system.local"
      = some { bootstrapAdmin with
               role := ROLE_FAMILY,
               allowed_cameras := ["front_door"] } :=
  share_family_overwrites_any_role loggedInHomeowner "admin@system.local"
    "x" ["front_door"] bootstrapAdmin (by decide) (by decide)

end CS410Auth
